import Mathlib

/-!
Verification development for the shared-expense splitting and settlement
ledger of the `senior-project` backend (src/backend).

Shallow embedding conventions:
* Python `float` dollar amounts and parsed timestamps are embedded as `ℚ`
  (exact arithmetic; the spec's 1e-6 tolerance language is satisfied
  exactly).  Because the library's `Rat.add`/`Rat.mul`/… are
  `@[irreducible]`, the embedding computes with kernel-reducible
  re-implementations `ratAdd`/`ratSub`/`ratMul`/`ratDiv`/`ratAbs`; the
  theorems `ratAdd_eq` … `ratAbs_eq` prove each one equal to the
  corresponding library operation, so the semantics is the ordinary one.
* Supabase table rows are embedded as Lean structures; the two relevant
  tables (`expenses`, `transactions`) form a `Store`.
* Nullable columns / missing dict keys are `Option`.
* A transaction's `created_at` is embedded as the already-parsed timestamp
  in seconds (`Option ℚ`); `none` models a missing or unparsable
  `created_at` string (both are skipped identically by the source, see
  src/backend/db/transactions.py lines 105-116 and 137-147).
* Python keyword-argument binding is made explicit: a call binds
  successfully iff every keyword passed at the call site occurs in the
  callee's parameter list; otherwise the call raises `TypeError` before the
  callee body runs.  This matters because `db/transactions.py` defines
  `create_transaction(group_id, user_owed, user_owing, amount, notes=None)`
  (lines 16-30), while its callers in `db/expenses.py` (lines 110-118,
  323-331) and `app/api/transactions.py` (lines 38-46) additionally pass
  `expense_id=` and `access_token=`.
* Python module imports are made explicit the same way: `from M import ns`
  succeeds iff every name in `ns` is defined by module `M` (`importOk`),
  and otherwise raises `ImportError` at the import statement.  This
  matters because `db/expenses.py` line 265 imports
  `get_transactions_by_expense_id` from `db.transactions` outside any
  `try`, and `db/transactions.py` defines no such name.
-/

/-- Kernel-reducible addition on `ℚ` (`= a + b`, see `ratAdd_eq`). -/
def ratAdd (a b : ℚ) : ℚ := mkRat (a.num * b.den + b.num * a.den) (a.den * b.den)

/-- Kernel-reducible subtraction on `ℚ` (`= a - b`, see `ratSub_eq`). -/
def ratSub (a b : ℚ) : ℚ := mkRat (a.num * b.den - b.num * a.den) (a.den * b.den)

/-- Kernel-reducible multiplication on `ℚ` (`= a * b`, see `ratMul_eq`). -/
def ratMul (a b : ℚ) : ℚ := mkRat (a.num * b.num) (a.den * b.den)

/-- Kernel-reducible division on `ℚ` (`= a / b`, with `/ 0 = 0` as in
Lean's field division; see `ratDiv_eq`). -/
def ratDiv (a b : ℚ) : ℚ :=
  if 0 ≤ b.num then mkRat (a.num * b.den) (a.den * b.num.toNat)
  else mkRat (-(a.num * b.den)) (a.den * (-b.num).toNat)

/-- Kernel-reducible absolute value on `ℚ` (`= |a|`, see `ratAbs_eq`). -/
def ratAbs (a : ℚ) : ℚ := if a.num < 0 then mkRat (-a.num) a.den else a

theorem rat_num_cast_eq_mul_den (a : ℚ) : (a.num : ℚ) = a * a.den := by
  have ha : (a.den : ℚ) ≠ 0 := by positivity
  exact (div_eq_iff ha).1 (Rat.num_div_den a)

theorem ratAdd_eq (a b : ℚ) : ratAdd a b = a + b := by
  have ha : (a.den : ℚ) ≠ 0 := by positivity
  have hb : (b.den : ℚ) ≠ 0 := by positivity
  rw [ratAdd, Rat.mkRat_eq_div]
  push_cast
  rw [rat_num_cast_eq_mul_den a, rat_num_cast_eq_mul_den b,
    div_eq_iff (mul_ne_zero ha hb)]
  ring

theorem ratSub_eq (a b : ℚ) : ratSub a b = a - b := by
  have ha : (a.den : ℚ) ≠ 0 := by positivity
  have hb : (b.den : ℚ) ≠ 0 := by positivity
  rw [ratSub, Rat.mkRat_eq_div]
  push_cast
  rw [rat_num_cast_eq_mul_den a, rat_num_cast_eq_mul_den b,
    div_eq_iff (mul_ne_zero ha hb)]
  ring

theorem ratMul_eq (a b : ℚ) : ratMul a b = a * b := by
  have ha : (a.den : ℚ) ≠ 0 := by positivity
  have hb : (b.den : ℚ) ≠ 0 := by positivity
  rw [ratMul, Rat.mkRat_eq_div]
  push_cast
  rw [rat_num_cast_eq_mul_den a, rat_num_cast_eq_mul_den b,
    div_eq_iff (mul_ne_zero ha hb)]
  ring

theorem ratDiv_eq (a b : ℚ) : ratDiv a b = a / b := by
  have ha : (a.den : ℚ) ≠ 0 := by positivity
  have hb : (b.den : ℚ) ≠ 0 := by positivity
  rcases eq_or_ne b 0 with rfl | hb0
  · rw [ratDiv]
    norm_num [Rat.mkRat_eq_div]
  · have hbnum : b.num ≠ 0 := fun h => hb0 (Rat.zero_iff_num_zero.2 h)
    have hbQ : (b.num : ℚ) ≠ 0 := by exact_mod_cast hbnum
    have key : a / b = ((a.num : ℚ) * b.den) / ((a.den : ℚ) * b.num) := by
      rw [div_eq_div_iff hb0 (mul_ne_zero ha hbQ),
        rat_num_cast_eq_mul_den a, rat_num_cast_eq_mul_den b]
      ring
    rcases lt_or_le b.num 0 with hneg | hpos
    · rw [ratDiv, if_neg (by omega), Rat.mkRat_eq_div, key]
      have ht2 : (((-b.num).toNat : ℕ) : ℚ) = -(b.num : ℚ) := by
        have := Int.toNat_of_nonneg (show (0:ℤ) ≤ -b.num by omega)
        exact_mod_cast this
      push_cast [ht2]
      rw [div_eq_div_iff (by
          exact mul_ne_zero ha (by simpa using hbQ)) (mul_ne_zero ha hbQ)]
      ring
    · rw [ratDiv, if_pos hpos, Rat.mkRat_eq_div, key]
      have ht2 : ((b.num.toNat : ℕ) : ℚ) = (b.num : ℚ) := by
        have := Int.toNat_of_nonneg hpos
        exact_mod_cast this
      push_cast [ht2]
      rfl

theorem ratAbs_eq (a : ℚ) : ratAbs a = |a| := by
  rw [ratAbs]
  rcases lt_or_le a.num 0 with hneg | hpos
  · have hlt : a < 0 := Rat.num_neg.1 hneg
    rw [if_pos hneg, abs_of_neg hlt, Rat.mkRat_eq_div]
    push_cast
    rw [neg_div, Rat.num_div_den]
  · have hnonneg : 0 ≤ a := Rat.num_nonneg.1 hpos
    rw [if_neg (not_lt.2 hpos), abs_of_nonneg hnonneg]

/-- One row of the `transactions` table (the spec's DebtRecord). -/
structure Txn where
  transaction_id : String
  group_id : String
  user_owed : String
  user_owing : String
  amount : ℚ
  notes : Option String := none
  expense_id : Option String := none
  created_at : Option ℚ := none
deriving DecidableEq

/-- One row of the `expenses` table. -/
structure ExpenseRow where
  expense_id : String
  user_id : String
  amount : ℚ
  credit : Bool
  category : String
  notes : Option String := none
  created_at : Option String := none
  updated_at : Option String := none
deriving DecidableEq

/-- The record store: the two tables the ledger core touches. -/
structure Store where
  expenses : List ExpenseRow
  transactions : List Txn
deriving DecidableEq

/-- Round-half-to-even to an integer, the tie-breaking rule of Python's
built-in `round`.  The floor is Euclidean division of the numerator by the
(positive) denominator. -/
def roundHalfEven (q : ℚ) : ℤ :=
  let f : ℤ := q.num.ediv q.den
  let r : ℚ := ratSub q f
  if r < mkRat 1 2 then f
  else if mkRat 1 2 < r then f + 1
  else if f % 2 = 0 then f else f + 1

/-- Python's `round(x, 2)` (round to 2 decimal places, ties to even), on the
exact rational embedding of the float. -/
def round2 (q : ℚ) : ℚ := ratDiv (roundHalfEven (ratMul q 100) : ℚ) 100

example : round2 (ratMul (mkRat 45 2) 4) = 90 := by decide
example : round2 (mkRat 1 200) = 0 := by decide
example : round2 (mkRat 3 200) = mkRat 1 50 := by decide
example : round2 (mkRat (-1) 3) = mkRat (-33) 100 := by decide

/-- A grouped transaction (the spec's LogicalSplit), mirroring the dict built
at src/backend/db/transactions.py lines 172-182.  `user_owing_list` is the
Python set `user_owing_set` (the enumeration order of its `list(...)` is
implementation-defined, so the set itself is the embedded value);
`created_at` is the seed record's timestamp. -/
structure GroupedTxn where
  group_id : String
  user_owed : String
  user_owing_list : Finset String
  amount_per_person : ℚ
  total_amount : ℚ
  participant_count : ℕ
  created_at : ℚ
  transaction_ids : List String
  notes : Option String
deriving DecidableEq

/-- Result of the inner clustering scan. -/
structure ClusterResult where
  cluster : List Txn
  owing : Finset String
  processed : List String
deriving DecidableEq

/-- The inner loop of `get_grouped_transactions_for_user`
(src/backend/db/transactions.py lines 126-155): scan every transaction,
skipping already-processed ones, keeping those that share the seed's
`group_id` and `user_owed` and whose parsed `created_at` lies within 1
second of the seed's; each kept record is marked processed and its
non-empty `user_owing` is added to the owing set (`if t.get("user_owing")`
is Python truthiness on a string). -/
def collectCluster (seedGid seedOwed : String) (seedTime : ℚ) :
    List Txn → List String → ClusterResult
  | [], processed => ⟨[], ∅, processed⟩
  | t :: rest, processed =>
    if t.transaction_id ∈ processed then
      collectCluster seedGid seedOwed seedTime rest processed
    else if t.group_id ≠ seedGid then
      collectCluster seedGid seedOwed seedTime rest processed
    else if t.user_owed ≠ seedOwed then
      collectCluster seedGid seedOwed seedTime rest processed
    else
      match t.created_at with
      | none => collectCluster seedGid seedOwed seedTime rest processed
      | some ts =>
        if ratAbs (ratSub ts seedTime) ≤ 1 then
          let r := collectCluster seedGid seedOwed seedTime rest
            (t.transaction_id :: processed)
          ⟨t :: r.cluster,
           (if t.user_owing ≠ "" then insert t.user_owing r.owing else r.owing),
           r.processed⟩
        else
          collectCluster seedGid seedOwed seedTime rest processed

/-- The outer loop of `get_grouped_transactions_for_user`
(src/backend/db/transactions.py lines 100-184): take each record in turn as
a seed unless already processed or lacking a parsable `created_at`, collect
its cluster over the whole fetched list, and emit one grouped transaction
per non-empty cluster, with `amount_per_person` taken from the cluster's
first member (`transaction_group[0]`),
`total_amount = round(amount_per_person * (participant_count + 1), 2)` and
the stored `participant_count` being the owing-set size plus one. -/
def groupGo (all : List Txn) : List Txn → List String → List GroupedTxn
  | [], _ => []
  | t :: rest, processed =>
    if t.transaction_id ∈ processed then groupGo all rest processed
    else
      match t.created_at with
      | none => groupGo all rest processed
      | some ts =>
        let r := collectCluster t.group_id t.user_owed ts all processed
        match r.cluster with
        | [] => groupGo all rest r.processed
        | sample :: _ =>
          { group_id := t.group_id
            user_owed := t.user_owed
            user_owing_list := r.owing
            amount_per_person := sample.amount
            total_amount := round2 (ratMul sample.amount ((r.owing.card + 1 : ℕ) : ℚ))
            participant_count := r.owing.card + 1
            created_at := ts
            transaction_ids := r.cluster.map (fun x => x.transaction_id)
            notes := sample.notes } :: groupGo all rest r.processed

/-- The grouping computation of `get_grouped_transactions_for_user` applied
to the fetched transaction list (src/backend/db/transactions.py
lines 96-184). -/
def groupedTransactions (all : List Txn) : List GroupedTxn :=
  groupGo all all []

/-- The balance accumulation of `get_grouped_transactions_for_user`
(src/backend/db/transactions.py lines 188-196): one pass over all fetched
transactions summing `amount` into `balance_owed` when
`user_owed == user_id` and into `balance_owing` when
`user_owing == user_id`. -/
def balanceAccums (user_id : String) (all : List Txn) : ℚ × ℚ :=
  all.foldl
    (fun acc t =>
      ((if t.user_owed = user_id then ratAdd acc.1 t.amount else acc.1),
       (if t.user_owing = user_id then ratAdd acc.2 t.amount else acc.2)))
    (0, 0)

/-- The `user_balance` output (src/backend/db/transactions.py line 198):
`round(balance_owed - balance_owing, 2)`. -/
def userBalance (user_id : String) (all : List Txn) : ℚ :=
  round2 (ratSub (balanceAccums user_id all).1 (balanceAccums user_id all).2)

example : round2 (ratMul (mkRat 45 2) 4) = 90 := by decide

set_option maxRecDepth 8000 in
example :
    groupedTransactions
      [⟨"t1", "g", "c", "p1", mkRat 45 2, some "d", some "e1", some 0⟩,
       ⟨"t2", "g", "c", "p2", mkRat 45 2, some "d", some "e1", some 1⟩,
       ⟨"t3", "g", "c", "p3", mkRat 45 2, some "d", some "e1", some (mkRat 1 2)⟩] =
      [⟨"g", "c", insert "p1" (insert "p2" (insert "p3" ∅)), mkRat 45 2, 90, 4, 0,
        ["t1", "t2", "t3"], some "d"⟩] := by decide

/-- A value in the result dict of `get_grouped_transactions_for_user`. -/
inductive RVal where
  | groupedList : List GroupedTxn → RVal
  | num : ℚ → RVal
  | byGroup : List (String × List GroupedTxn) → RVal
  | emptyDict : RVal
deriving DecidableEq

/-- Append `g` to the entry of key `k` (inserting the key at the end if it
is new), mirroring one `defaultdict(list)` append. -/
def upsertGroup (m : List (String × List GroupedTxn)) (k : String)
    (g : GroupedTxn) : List (String × List GroupedTxn) :=
  match m with
  | [] => [(k, [g])]
  | (k', l) :: rest =>
    if k' = k then (k', l ++ [g]) :: rest
    else (k', l) :: upsertGroup rest k g

/-- The `transactions_by_group` construction
(src/backend/db/transactions.py lines 201-203): a `defaultdict(list)`
filled by appending each grouped transaction under its `group_id`
(insertion-ordered, as Python dicts are). -/
def groupByGroupId (l : List GroupedTxn) : List (String × List GroupedTxn) :=
  l.foldl (fun m g => upsertGroup m g.group_id g) []

/-- Embedding of `get_grouped_transactions_for_user(user_id, group_ids)`
(src/backend/db/transactions.py lines 78-211).  `store` is the
`transactions` table; the fetch is the `.in_("group_id", group_ids)` filter
(the store's `ORDER BY created_at DESC` answer order is represented by the
order of `store` itself).  The returned `Bool` records whether the store
query was executed: with an empty `group_ids` the function returns its
fixed dict (lines 84-89) before any query. -/
def get_grouped_transactions_for_user (user_id : String)
    (group_ids : List String) (store : List Txn) :
    List (String × RVal) × Bool :=
  if group_ids = [] then
    ([("transactions", RVal.groupedList []),
      ("user_balance", RVal.num 0),
      ("groups", RVal.emptyDict)], false)
  else
    let all := store.filter (fun t => t.group_id ∈ group_ids)
    let gts := groupedTransactions all
    let owed := (balanceAccums user_id all).1
    let owing := (balanceAccums user_id all).2
    ([("transactions", RVal.groupedList gts),
      ("transactions_by_group", RVal.byGroup (groupByGroupId gts)),
      ("user_balance", RVal.num (round2 (ratSub owed owing))),
      ("total_owed", RVal.num (round2 owed)),
      ("total_owing", RVal.num (round2 owing))], true)

/-- Python keyword binding: a call that passes a keyword argument absent
from the callee's parameter list raises `TypeError` before the callee body
runs. -/
def kwargsBindOk (params kwargs : List String) : Bool :=
  kwargs.all (fun k => params.contains k)

/-- The parameter list of `create_transaction` as defined in
src/backend/db/transactions.py line 16:
`create_transaction(group_id, user_owed, user_owing, amount, notes=None)`. -/
def create_transaction_params : List String :=
  ["group_id", "user_owed", "user_owing", "amount", "notes"]

/-- The keyword names passed to `create_transaction` by `create_expense`
(src/backend/db/expenses.py lines 110-118) and by the participants-changed
branch of `update_expense` (lines 323-331). -/
def create_expense_call_kwargs : List String :=
  ["group_id", "user_owed", "user_owing", "amount", "notes",
   "expense_id", "access_token"]

/-- The keyword names passed to `create_transaction` by
`create_transaction_endpoint` (src/backend/app/api/transactions.py
lines 38-46). -/
def api_create_transaction_kwargs : List String :=
  ["group_id", "user_owed", "user_owing", "amount", "notes",
   "expense_id", "access_token"]

/-- The row inserted by the body of `create_transaction`
(src/backend/db/transactions.py lines 16-30): the payload contains
`group_id`, `user_owed`, `user_owing`, `amount` and, when not `None`,
`notes` — and no expense reference.  `newId` and `now` stand for the
store-assigned `transaction_id` and `created_at` defaults. -/
def create_transaction_insert (group_id user_owed user_owing : String)
    (amount : ℚ) (notes : Option String) (newId : String) (now : Option ℚ) :
    Txn :=
  { transaction_id := newId
    group_id := group_id
    user_owed := user_owed
    user_owing := user_owing
    amount := amount
    notes := notes
    expense_id := none
    created_at := now }

/-- A value in an expense-result dict (`_map_expense_fields` output). -/
inductive PyVal where
  | s : String → PyVal
  | q : ℚ → PyVal
  | b : Bool → PyVal
  | os : Option String → PyVal
deriving DecidableEq

/-- Embedding of `_map_expense_fields` (src/backend/db/expenses.py
lines 19-30): the dict returned to API callers, with its fixed key set. -/
def map_expense_fields (e : ExpenseRow) : List (String × PyVal) :=
  [("id", PyVal.s e.expense_id),
   ("user_id", PyVal.s e.user_id),
   ("amount_dollars", PyVal.q e.amount),
   ("credit", PyVal.b e.credit),
   ("category", PyVal.s e.category),
   ("description", PyVal.os e.notes),
   ("created_at", PyVal.os e.created_at),
   ("updated_at", PyVal.os e.updated_at)]

/-- Embedding of `create_expense` (src/backend/db/expenses.py
lines 33-137).  `newId` is the store-assigned `expense_id` of the inserted
row.  When the expense is a group expense with a group id and a non-empty
participant list, the source calls `create_transaction` with the keyword
arguments `expense_id=` and `access_token=`; since `create_transaction`
(src/backend/db/transactions.py line 16) accepts neither, that call raises
`TypeError`, which the `except` at lines 121-124 swallows ("Don't fail the
expense creation if transaction creation fails"), so no transaction rows
are inserted.  In every case the function returns
`_map_expense_fields(expense_data)` (line 128) — there is no warning field
in the result. -/
def create_expense (store : Store) (newId : String) (user_id : String)
    (amount_dollars : ℚ) (credit : Bool) (category : String)
    (description : Option String) (created_at : Option String)
    (is_group : Bool) (group_id : Option String)
    (participant_user_ids : Option (List String)) :
    List (String × PyVal) × Store :=
  let row : ExpenseRow :=
    { expense_id := newId
      user_id := user_id
      amount := amount_dollars
      credit := credit
      category := category
      notes := description
      created_at := created_at
      updated_at := none }
  let store1 : Store := { store with expenses := store.expenses ++ [row] }
  let has_participants :=
    match participant_user_ids with
    | some l => decide (l ≠ [])
    | none => false
  if is_group && group_id.isSome && has_participants then
    if kwargsBindOk create_transaction_params create_expense_call_kwargs then
      -- Unreachable: the keyword binding check fails.  Were it to succeed,
      -- lines 103-118 would insert one row per participant with
      -- `amount = amount_dollars / (len(participants) + 1)`; the
      -- store-assigned id and timestamp defaults are left as placeholders.
      let ps := participant_user_ids.getD []
      let app := ratDiv amount_dollars ((ps.length + 1 : ℕ) : ℚ)
      let newTxns := ps.map (fun pid =>
        create_transaction_insert (group_id.getD "") user_id pid app
          description "" none)
      (map_expense_fields row,
       { store1 with transactions := store1.transactions ++ newTxns })
    else
      (map_expense_fields row, store1)
  else
    (map_expense_fields row, store1)

/-- Embedding of `delete_expense` (src/backend/db/expenses.py
lines 371-380): a single `DELETE ... WHERE expense_id = ?` on the
`expenses` table; the `transactions` table is not touched.  The returned
flag is `len(resp.data) > 0`, where `resp.data` is the list of deleted
rows. -/
def delete_expense (store : Store) (expense_id : String) : Bool × Store :=
  let deleted := store.expenses.filter (fun e => e.expense_id = expense_id)
  (decide (deleted ≠ []),
   { store with
       expenses := store.expenses.filter (fun e => e.expense_id ≠ expense_id) })

/-- The names defined at module level by src/backend/db/transactions.py
(lines 13-78).  The module defines none of
`get_transactions_by_expense_id`, `delete_transactions_by_expense_id`,
`update_transactions_by_expense_id`, which db/expenses.py imports from
it. -/
def db_transactions_defined_names : List String :=
  ["_table", "create_transaction", "get_transaction_by_id",
   "get_transactions_by_group_id", "get_transactions_by_user_id",
   "get_transactions_by_user_owed", "get_transactions_by_user_owing",
   "delete_transaction", "update_transaction",
   "get_transactions_by_group_id_and_user_id",
   "get_transactions_by_user_owed_and_user_owing",
   "get_grouped_transactions_for_user"]

/-- Python `from M import a, b, ...`: the import succeeds iff every
imported name is defined by the module; otherwise the statement raises
`ImportError`. -/
def importOk (defined imported : List String) : Bool :=
  imported.all (fun n => defined.contains n)

/-- The names imported — outside any `try` — by `update_expense` at
src/backend/db/expenses.py line 265. -/
def update_expense_import_names : List String :=
  ["get_transactions_by_expense_id"]

/-- The partial update payload of `update_expense` after the API layer has
stripped `None` entries (src/backend/app/api/expenses.py line 207): a field
is `some` exactly when the corresponding key is present in `updates`. -/
structure ExpenseUpdates where
  amount_dollars : Option ℚ := none
  description : Option String := none
  credit : Option Bool := none
  category : Option String := none
  created_at : Option String := none
  participant_user_ids : Option (List String) := none
deriving DecidableEq

/-- Outcome of an `update_expense` call; `importError` is the uncaught
`ImportError` propagating to the caller. -/
inductive UpdateResult where
  | ok : Option (List (String × PyVal)) → UpdateResult
  | importError : UpdateResult
deriving DecidableEq

/-- Embedding of `update_expense` (src/backend/db/expenses.py
lines 244-368).  The flow: look up the expense (lines 250-260; a missing
expense returns `None` before anything else runs); then line 265 executes
`from db.transactions import get_transactions_by_expense_id` outside any
`try` — and `db/transactions.py` defines no such name — so every call on
an existing expense raises an uncaught `ImportError` and nothing is
written: the cascade of lines 302-356 (including the amount-only in-place
update of lines 335-346) and the expense-row update of lines 361-365 are
unreachable.  The import-succeeds branch is a placeholder returning the
current row untouched: it cannot execute, and the functions it would call
do not exist in the source to be modelled. -/
def update_expense (store : Store) (expense_id : String)
    (updates : ExpenseUpdates) : UpdateResult × Store :=
  match store.expenses.find? (fun e => e.expense_id = expense_id) with
  | none => (UpdateResult.ok none, store)
  | some row =>
    if importOk db_transactions_defined_names update_expense_import_names
    then
      (UpdateResult.ok (some (map_expense_fields row)), store)
    else
      (UpdateResult.importError, store)

/-- The request body of the transactions POST endpoint, mirroring the
`TransactionCreate` schema (src/backend/app/schemas/transaction.py
lines 4-13). -/
structure TransactionCreateReq where
  group_id : String
  user_owed : String
  user_owing : String
  amount : ℚ
  notes : Option String := none
  expense_id : Option String := none
deriving DecidableEq

/-- Modelled from the spec: the store-side SQL function
`create_settlement_expense` invoked via RPC at
src/backend/app/api/transactions.py lines 62-70 and 77-85 is repository
code not under src/ (only its callers are).  Per the spec's
SettlementRecorder (§4.5) it inserts one Expense row for the given user
with the given amount, credit flag, settlement category and note,
timestamped with the passed date; `newId` stands for the store-assigned
expense id. -/
def create_settlement_expense (store : Store) (newId : String)
    (user_id : String) (amount : ℚ) (credit : Bool) (category : String)
    (notes : String) (created_at : String) : Store :=
  { store with
      expenses := store.expenses ++
        [{ expense_id := newId
           user_id := user_id
           amount := amount
           credit := credit
           category := category
           notes := some notes
           created_at := some created_at
           updated_at := none }] }

/-- Outcome of an API endpoint call. -/
inductive EndpointResult where
  | ok : Txn → EndpointResult
  | httpError : ℕ → EndpointResult
deriving DecidableEq

/-- Embedding of `create_transaction_endpoint`
(src/backend/app/api/transactions.py lines 30-98).  The endpoint first
calls `create_transaction` with `expense_id=` and `access_token=` keyword
arguments; since the src `create_transaction`
(src/backend/db/transactions.py line 16) accepts neither, that call raises
`TypeError`, the `except` at line 97 converts it to an HTTP 400, and
nothing is written.  Were the binding to succeed, the endpoint would insert
the transaction row and, when `notes.lower() == "settlement"`, additionally
insert the two settlement expense rows (a debit for the payer `user_owed`
and a credit for the recipient `user_owing`) via the modelled
`create_settlement_expense` RPC.  `newTxnId`/`now` are store-assigned
defaults, `eid1`/`eid2` the settlement expenses' ids and `today` the
current date. -/
def create_transaction_endpoint (store : Store) (req : TransactionCreateReq)
    (newTxnId : String) (now : Option ℚ) (eid1 eid2 : String)
    (today : String) : EndpointResult × Store :=
  if kwargsBindOk create_transaction_params api_create_transaction_kwargs then
    let t := create_transaction_insert req.group_id req.user_owed
      req.user_owing req.amount req.notes newTxnId now
    let store1 : Store :=
      { store with transactions := store.transactions ++ [t] }
    let store2 :=
      match req.notes with
      | some s =>
        if s.toLower = "settlement" then
          let storeA := create_settlement_expense store1 eid1 req.user_owed
            req.amount false "Settlement" "Settlement paid to group member"
            today
          create_settlement_expense storeA eid2 req.user_owing req.amount
            true "Settlement" "Settlement received from group transaction"
            today
        else store1
      | none => store1
    (EndpointResult.ok t, store2)
  else
    (EndpointResult.httpError 400, store)

/-- A JSON value in a request body. -/
inductive JVal where
  | str : String → JVal
  | num : ℚ → JVal
  | boolean : Bool → JVal
  | null : JVal
deriving DecidableEq

/-- Key lookup in a JSON object body. -/
def jlookup (body : List (String × JVal)) (k : String) : Option JVal :=
  (body.find? (fun p => p.1 = k)).map (fun p => p.2)

/-- Embedding of pydantic validation for the `TransactionCreate` schema
(src/backend/app/schemas/transaction.py lines 4-13): `group_id`,
`user_owed`, `user_owing` are required strings, `amount` is a required
number, `notes` and `expense_id` are optional nullable strings.  The class
declares no `Field` constraint and no validator, so no condition is placed
on the value of `amount`. -/
def validateTransactionCreate (body : List (String × JVal)) :
    Except String TransactionCreateReq :=
  match jlookup body "group_id", jlookup body "user_owed",
      jlookup body "user_owing", jlookup body "amount" with
  | some (JVal.str g), some (JVal.str uo), some (JVal.str uw),
      some (JVal.num a) =>
    let notes := match jlookup body "notes" with
                 | some (JVal.str s) => some s
                 | _ => none
    let eid := match jlookup body "expense_id" with
               | some (JVal.str s) => some s
               | _ => none
    Except.ok
      { group_id := g, user_owed := uo, user_owing := uw, amount := a,
        notes := notes, expense_id := eid }
  | _, _, _, _ => Except.error "validation error"

/-- C1 counterexample: a store holds one expense `e1` and one DebtRecord
referencing it; `delete_expense` reports success, yet the referencing
DebtRecord is still in the store, so the claim "after DeleteExpense(id)
returns success, zero DebtRecords referencing id remain" is false on the
code. -/
theorem C1_counterexample :
    (delete_expense
      ⟨[⟨"e1", "u1", 30, false, "Food", some "dinner", none, none⟩],
       [⟨"t1", "g1", "u1", "u2", 15, some "dinner", some "e1", some 0⟩]⟩
      "e1").1 = true ∧
    ((delete_expense
      ⟨[⟨"e1", "u1", 30, false, "Food", some "dinner", none, none⟩],
       [⟨"t1", "g1", "u1", "u2", 15, some "dinner", some "e1", some 0⟩]⟩
      "e1").2.transactions.filter
        (fun t => t.expense_id = some "e1")).length = 1 := by
  constructor
  · rfl
  · rfl

/-- C1 amended: `delete_expense` issues a single delete on the `expenses`
table only: it removes exactly the expense rows with the given id, leaves
the `transactions` table — and hence every DebtRecord referencing the
expense — completely untouched, and reports success exactly when at least
one expense row matched. -/
theorem C1_delete_expense_removes_only_expense_rows (store : Store)
    (eid : String) :
    (delete_expense store eid).2.transactions = store.transactions ∧
    (delete_expense store eid).2.expenses
      = store.expenses.filter (fun e => e.expense_id ≠ eid) ∧
    ((delete_expense store eid).1 = true ↔
      ∃ e ∈ store.expenses, e.expense_id = eid) := by
  refine ⟨rfl, rfl, ?_⟩
  simp only [delete_expense, decide_eq_true_eq, ne_eq]
  constructor
  · intro h
    rcases List.exists_mem_of_ne_nil _ h with ⟨e, he⟩
    exact ⟨e, (List.mem_filter.1 he).1,
      of_decide_eq_true (List.mem_filter.1 he).2⟩
  · intro ⟨e, hmem, heq⟩ hnil
    have : e ∈ store.expenses.filter (fun e => e.expense_id = eid) :=
      List.mem_filter.2 ⟨hmem, decide_eq_true heq⟩
    rw [hnil] at this
    exact absurd this (List.not_mem_nil e)

/-- C2: the split arithmetic intended at src/backend/db/expenses.py
lines 103-118 never runs: `create_transaction` accepts none of the
`expense_id=`/`access_token=` keywords the call passes, so the call raises
`TypeError`, caught at line 121, and a group-expense creation with one
participant inserts zero transaction rows (the claim requires exactly one
per participant, with the expense reference set) while still returning the
mapped expense. -/
theorem C2_create_expense_split_lost :
    kwargsBindOk create_transaction_params create_expense_call_kwargs
      = false ∧
    (create_expense ⟨[], []⟩ "e1" "u1" 30 false "Food" (some "dinner") none
      true (some "g1") (some ["u2"])).2.transactions = [] ∧
    (create_expense ⟨[], []⟩ "e1" "u1" 30 false "Food" (some "dinner") none
      true (some "g1") (some ["u2"])).1 =
      map_expense_fields
        ⟨"e1", "u1", 30, false, "Food", some "dinner", none, none⟩ := by
  refine ⟨rfl, rfl, rfl⟩

/-- C7 counterexample: on a group-expense creation whose DebtRecord inserts
fail (they always do: the `create_transaction` call raises `TypeError`), the
operation returns the created expense with exactly the eight
`_map_expense_fields` keys and no warning key, and inserts no transaction —
so the partial failure is not "visible to the caller through a warning in
the result"; it is only logged (src/backend/db/expenses.py line 122). -/
theorem C7_counterexample :
    ((create_expense ⟨[], []⟩ "e1" "u1" 30 false "Food" (some "dinner") none
      true (some "g1") (some ["u2"])).1.map Prod.fst =
      ["id", "user_id", "amount_dollars", "credit", "category",
       "description", "created_at", "updated_at"]) ∧
    "warning" ∉ ((create_expense ⟨[], []⟩ "e1" "u1" 30 false "Food"
      (some "dinner") none true (some "g1") (some ["u2"])).1.map
        Prod.fst) ∧
    (create_expense ⟨[], []⟩ "e1" "u1" 30 false "Food" (some "dinner") none
      true (some "g1") (some ["u2"])).2.transactions = [] := by
  refine ⟨rfl, by decide, rfl⟩

/-- C7 amended: when the expense insert succeeds but the DebtRecord inserts
fail, `create_expense` still returns the created expense — but the partial
failure is observable only through the logged event, not through the
result: the response is `_map_expense_fields(row)`, with the same fixed
eight keys as a fully successful plain creation and no warning entry, and
the transactions table is left unchanged. -/
theorem C7_partial_failure_only_logged (store : Store)
    (newId uid cat g p : String) (amt : ℚ) (credit : Bool)
    (desc created : Option String) (ps : List String) :
    (create_expense store newId uid amt credit cat desc created true
      (some g) (some (p :: ps))).2.transactions = store.transactions ∧
    (create_expense store newId uid amt credit cat desc created true
      (some g) (some (p :: ps))).1 =
      map_expense_fields ⟨newId, uid, amt, credit, cat, desc, created,
        none⟩ ∧
    "warning" ∉ ((create_expense store newId uid amt credit cat desc created
      true (some g) (some (p :: ps))).1.map Prod.fst) := by
  refine ⟨rfl, rfl, ?_⟩
  show "warning" ∉ ["id", "user_id", "amount_dollars", "credit", "category",
    "description", "created_at", "updated_at"]
  decide

/-- C3: recording a settlement through the transactions POST endpoint never
reaches the settlement-expense writes: the endpoint's first step calls
`create_transaction` with `expense_id=`/`access_token=` keywords the src
function does not accept, the resulting `TypeError` is converted to
HTTP 400 at src/backend/app/api/transactions.py line 97, and the store —
shown here already holding a DebtRecord and an expense — is completely
unchanged: in particular the two settlement Expense rows the claim promises
are not written. -/
theorem C3_settlement_endpoint_broken :
    kwargsBindOk create_transaction_params api_create_transaction_kwargs
      = false ∧
    (create_transaction_endpoint
      ⟨[⟨"e1", "userA", 30, false, "Food", some "dinner", none, none⟩],
       [⟨"t1", "g1", "userA", "userB", 15, some "dinner", some "e1",
         some 0⟩]⟩
      ⟨"g1", "userB", "userA", 15, some "settlement", none⟩
      "t2" none "e8" "e9" "2026-10-12").1 =
      EndpointResult.httpError 400 ∧
    (create_transaction_endpoint
      ⟨[⟨"e1", "userA", 30, false, "Food", some "dinner", none, none⟩],
       [⟨"t1", "g1", "userA", "userB", 15, some "dinner", some "e1",
         some 0⟩]⟩
      ⟨"g1", "userB", "userA", 15, some "settlement", none⟩
      "t2" none "e8" "e9" "2026-10-12").2 =
      ⟨[⟨"e1", "userA", 30, false, "Food", some "dinner", none, none⟩],
       [⟨"t1", "g1", "userA", "userB", 15, some "dinner", some "e1",
         some 0⟩]⟩ := by
  refine ⟨rfl, rfl, rfl⟩

/-- C8 counterexample: a settlement request body with `amount = -5` passes
`TransactionCreate` validation — it is not rejected as a validation error —
so the claim that the amount is validated to be strictly positive is false
on the code. -/
theorem C8_counterexample :
    validateTransactionCreate
      [("group_id", JVal.str "g1"), ("user_owed", JVal.str "payer"),
       ("user_owing", JVal.str "recipient"),
       ("amount", JVal.num (mkRat (-5) 1)),
       ("notes", JVal.str "settlement")] =
      Except.ok
        { group_id := "g1", user_owed := "payer", user_owing := "recipient",
          amount := mkRat (-5) 1, notes := some "settlement",
          expense_id := none } := by
  rfl

/-- C8 amended: the `TransactionCreate` schema performs no amount
validation: a request whose `amount` is any rational `q` — including
`q ≤ 0` — passes validation with that amount, so a settlement request with
a non-positive amount is not rejected before the write path runs. -/
theorem C8_no_amount_validation (g uo uw : String) (q : ℚ) (hq : q ≤ 0) :
    validateTransactionCreate
      [("group_id", JVal.str g), ("user_owed", JVal.str uo),
       ("user_owing", JVal.str uw), ("amount", JVal.num q),
       ("notes", JVal.str "settlement")] =
      Except.ok
        { group_id := g, user_owed := uo, user_owing := uw, amount := q,
          notes := some "settlement", expense_id := none } := by
  rfl

/-- C8 witness: the amended theorem applied at `amount = -5`. -/
theorem C8_no_amount_validation_witness :
    (mkRat (-5) 1 ≤ (0:ℚ)) ∧
    validateTransactionCreate
      [("group_id", JVal.str "g"), ("user_owed", JVal.str "payer"),
       ("user_owing", JVal.str "recipient"),
       ("amount", JVal.num (mkRat (-5) 1)),
       ("notes", JVal.str "settlement")] =
      Except.ok
        { group_id := "g", user_owed := "payer", user_owing := "recipient",
          amount := mkRat (-5) 1, notes := some "settlement",
          expense_id := none } :=
  ⟨by decide,
   C8_no_amount_validation "g" "payer" "recipient" (mkRat (-5) 1)
     (by decide)⟩

/-- C10: called with an empty group-id list,
`get_grouped_transactions_for_user` performs no store query (the flag is
`false` and the result is a fixed literal independent of the store) and
returns exactly the keys `transactions` (empty list), `user_balance` (0.0)
and `groups` (empty dict); with a non-empty group-id list it queries the
store and returns exactly the keys `transactions`, `transactions_by_group`,
`user_balance`, `total_owed`, `total_owing` — and no `groups` key. -/
theorem C10_result_shape (uid : String) (store : List Txn)
    (gids : List String) (h : gids ≠ []) :
    get_grouped_transactions_for_user uid [] store =
      ([("transactions", RVal.groupedList []),
        ("user_balance", RVal.num 0),
        ("groups", RVal.emptyDict)], false) ∧
    ((get_grouped_transactions_for_user uid gids store).1.map Prod.fst =
      ["transactions", "transactions_by_group", "user_balance",
       "total_owed", "total_owing"]) ∧
    (get_grouped_transactions_for_user uid gids store).2 = true ∧
    "groups" ∉
      ((get_grouped_transactions_for_user uid gids store).1.map
        Prod.fst) := by
  refine ⟨rfl, ?_, ?_, ?_⟩
  · simp [get_grouped_transactions_for_user, h]
  · simp [get_grouped_transactions_for_user, h]
  · simp [get_grouped_transactions_for_user, h]

/-- C10 witness: the theorem applied with group-id list `["g1"]` and a
one-record store. -/
theorem C10_result_shape_witness :
    ((["g1"] : List String) ≠ []) ∧
    (get_grouped_transactions_for_user "u1" []
        [⟨"t1", "g1", "u1", "u2", 15, none, none, some 0⟩] =
      ([("transactions", RVal.groupedList []),
        ("user_balance", RVal.num 0),
        ("groups", RVal.emptyDict)], false) ∧
    ((get_grouped_transactions_for_user "u1" ["g1"]
        [⟨"t1", "g1", "u1", "u2", 15, none, none, some 0⟩]).1.map
          Prod.fst =
      ["transactions", "transactions_by_group", "user_balance",
       "total_owed", "total_owing"]) ∧
    (get_grouped_transactions_for_user "u1" ["g1"]
        [⟨"t1", "g1", "u1", "u2", 15, none, none, some 0⟩]).2 = true ∧
    "groups" ∉
      ((get_grouped_transactions_for_user "u1" ["g1"]
          [⟨"t1", "g1", "u1", "u2", 15, none, none, some 0⟩]).1.map
            Prod.fst)) :=
  ⟨by decide,
   C10_result_shape "u1" [⟨"t1", "g1", "u1", "u2", 15, none, none, some 0⟩]
     ["g1"] (by decide)⟩

theorem balance_foldl (uid : String) (l : List Txn) :
    ∀ (a b : ℚ),
      l.foldl
        (fun acc t =>
          ((if t.user_owed = uid then ratAdd acc.1 t.amount else acc.1),
           (if t.user_owing = uid then ratAdd acc.2 t.amount else acc.2)))
        (a, b) =
      (a + ((l.filter (fun t => t.user_owed = uid)).map
        (fun t => t.amount)).sum,
       b + ((l.filter (fun t => t.user_owing = uid)).map
        (fun t => t.amount)).sum) := by
  induction l with
  | nil => intro a b; simp
  | cons t rest ih =>
    intro a b
    rw [List.foldl_cons, ih, Prod.ext_iff]
    refine ⟨?_, ?_⟩
    · by_cases h1 : t.user_owed = uid <;>
        simp [h1, List.filter_cons, ratAdd_eq] <;> ring
    · by_cases h2 : t.user_owing = uid <;>
        simp [h2, List.filter_cons, ratAdd_eq] <;> ring

theorem round2_cents (n : ℤ) : round2 ((n : ℚ) / 100) = (n : ℚ) / 100 := by
  have h1 : ratMul ((n : ℚ) / 100) 100 = (n : ℚ) := by
    rw [ratMul_eq]
    field_simp
  have h2 : roundHalfEven ((n : ℚ)) = n := by
    have he : n.ediv 1 = n := Int.ediv_one n
    simp only [roundHalfEven, Rat.intCast_num, Rat.intCast_den,
      Nat.cast_one, he, ratSub_eq, sub_self]
    rw [if_pos (by decide : (0:ℚ) < mkRat 1 2)]
  rw [round2, h1, h2, ratDiv_eq]

/-- C5: the balance computation of `get_grouped_transactions_for_user`
returns `owed` = the sum of amounts over records whose `user_owed` is the
user, `owing` = the sum over records whose `user_owing` is the user, and
`user_balance = round(owed - owing, 2)`; the result is unchanged under any
permutation of the input records; and for a single DebtRecord of a
currency amount `X = n/100` from debtor `B` to creditor `A`, the balance of
`A` is `+X` and the balance of `B` is `-X`. -/
theorem C5_balance_calculator (uid : String) (all all2 : List Txn)
    (hperm : all.Perm all2) (A B : String) (hAB : A ≠ B) (n : ℤ) :
    (balanceAccums uid all).1 =
      ((all.filter (fun t => t.user_owed = uid)).map
        (fun t => t.amount)).sum ∧
    (balanceAccums uid all).2 =
      ((all.filter (fun t => t.user_owing = uid)).map
        (fun t => t.amount)).sum ∧
    userBalance uid all =
      round2 (((all.filter (fun t => t.user_owed = uid)).map
          (fun t => t.amount)).sum -
        ((all.filter (fun t => t.user_owing = uid)).map
          (fun t => t.amount)).sum) ∧
    balanceAccums uid all = balanceAccums uid all2 ∧
    userBalance uid all = userBalance uid all2 ∧
    userBalance A
      [⟨"t1", "g1", A, B, (n : ℚ) / 100, none, some "e1", some 0⟩] =
      (n : ℚ) / 100 ∧
    userBalance B
      [⟨"t1", "g1", A, B, (n : ℚ) / 100, none, some "e1", some 0⟩] =
      -((n : ℚ) / 100) := by
  have hsums : ∀ l : List Txn, balanceAccums uid l =
      (((l.filter (fun t => t.user_owed = uid)).map
        (fun t => t.amount)).sum,
       ((l.filter (fun t => t.user_owing = uid)).map
        (fun t => t.amount)).sum) := by
    intro l
    rw [balanceAccums, balance_foldl]
    simp
  have howed : ((all.filter (fun t => t.user_owed = uid)).map
      (fun t => t.amount)).sum =
      ((all2.filter (fun t => t.user_owed = uid)).map
        (fun t => t.amount)).sum :=
    ((hperm.filter _).map _).sum_eq
  have howing : ((all.filter (fun t => t.user_owing = uid)).map
      (fun t => t.amount)).sum =
      ((all2.filter (fun t => t.user_owing = uid)).map
        (fun t => t.amount)).sum :=
    ((hperm.filter _).map _).sum_eq
  have haccs : balanceAccums uid all = balanceAccums uid all2 := by
    rw [hsums, hsums, howed, howing]
  refine ⟨by rw [hsums], by rw [hsums], ?_, haccs, ?_, ?_, ?_⟩
  · rw [userBalance, hsums, ratSub_eq]
  · rw [userBalance, userBalance, haccs]
  · have hBA : (B = A) = False := by
      simp [Ne.symm hAB]
    rw [userBalance]
    simp only [balanceAccums, List.foldl_cons, List.foldl_nil, hBA,
      if_false, if_true, if_pos rfl]
    rw [ratSub_eq, ratAdd_eq]
    simpa using round2_cents n
  · have hAB' : (A = B) = False := by
      simp [hAB]
    rw [userBalance]
    simp only [balanceAccums, List.foldl_cons, List.foldl_nil, hAB',
      if_false, if_true, if_pos rfl]
    rw [ratSub_eq, ratAdd_eq]
    have : (0 : ℚ) - (0 + (n : ℚ) / 100) = ((-n : ℤ) : ℚ) / 100 := by
      push_cast
      ring
    rw [this, round2_cents]
    push_cast
    ring

/-- C5 witness: the theorem applied to a concrete two-record store, its
reversal as the permutation, users `A` and `B`, and the currency amount
`150/100 = 1.50`. -/
theorem C5_balance_calculator_witness :
    ([⟨"t1", "g1", "A", "B", mkRat 3 2, none, some "e1", some 0⟩,
      ⟨"t2", "g1", "B", "A", mkRat 1 4, none, some "e2", some 5⟩] :
        List Txn).Perm
      [⟨"t2", "g1", "B", "A", mkRat 1 4, none, some "e2", some 5⟩,
       ⟨"t1", "g1", "A", "B", mkRat 3 2, none, some "e1", some 0⟩] ∧
    ("A" : String) ≠ "B" ∧
    ((balanceAccums "A"
        [⟨"t1", "g1", "A", "B", mkRat 3 2, none, some "e1", some 0⟩,
         ⟨"t2", "g1", "B", "A", mkRat 1 4, none, some "e2", some 5⟩]).1 =
      ((([⟨"t1", "g1", "A", "B", mkRat 3 2, none, some "e1", some 0⟩,
         ⟨"t2", "g1", "B", "A", mkRat 1 4, none, some "e2", some 5⟩] :
           List Txn).filter (fun t => t.user_owed = "A")).map
        (fun t => t.amount)).sum ∧
    (balanceAccums "A"
        [⟨"t1", "g1", "A", "B", mkRat 3 2, none, some "e1", some 0⟩,
         ⟨"t2", "g1", "B", "A", mkRat 1 4, none, some "e2", some 5⟩]).2 =
      ((([⟨"t1", "g1", "A", "B", mkRat 3 2, none, some "e1", some 0⟩,
         ⟨"t2", "g1", "B", "A", mkRat 1 4, none, some "e2", some 5⟩] :
           List Txn).filter (fun t => t.user_owing = "A")).map
        (fun t => t.amount)).sum ∧
    userBalance "A"
        [⟨"t1", "g1", "A", "B", mkRat 3 2, none, some "e1", some 0⟩,
         ⟨"t2", "g1", "B", "A", mkRat 1 4, none, some "e2", some 5⟩] =
      round2 (((([⟨"t1", "g1", "A", "B", mkRat 3 2, none, some "e1",
            some 0⟩,
          ⟨"t2", "g1", "B", "A", mkRat 1 4, none, some "e2", some 5⟩] :
            List Txn).filter (fun t => t.user_owed = "A")).map
          (fun t => t.amount)).sum -
        ((([⟨"t1", "g1", "A", "B", mkRat 3 2, none, some "e1", some 0⟩,
          ⟨"t2", "g1", "B", "A", mkRat 1 4, none, some "e2", some 5⟩] :
            List Txn).filter (fun t => t.user_owing = "A")).map
          (fun t => t.amount)).sum) ∧
    balanceAccums "A"
        [⟨"t1", "g1", "A", "B", mkRat 3 2, none, some "e1", some 0⟩,
         ⟨"t2", "g1", "B", "A", mkRat 1 4, none, some "e2", some 5⟩] =
      balanceAccums "A"
        [⟨"t2", "g1", "B", "A", mkRat 1 4, none, some "e2", some 5⟩,
         ⟨"t1", "g1", "A", "B", mkRat 3 2, none, some "e1", some 0⟩] ∧
    userBalance "A"
        [⟨"t1", "g1", "A", "B", mkRat 3 2, none, some "e1", some 0⟩,
         ⟨"t2", "g1", "B", "A", mkRat 1 4, none, some "e2", some 5⟩] =
      userBalance "A"
        [⟨"t2", "g1", "B", "A", mkRat 1 4, none, some "e2", some 5⟩,
         ⟨"t1", "g1", "A", "B", mkRat 3 2, none, some "e1", some 0⟩] ∧
    userBalance "A"
        [⟨"t1", "g1", "A", "B", ((150 : ℤ) : ℚ) / 100, none, some "e1",
          some 0⟩] = ((150 : ℤ) : ℚ) / 100 ∧
    userBalance "B"
        [⟨"t1", "g1", "A", "B", ((150 : ℤ) : ℚ) / 100, none, some "e1",
          some 0⟩] = -(((150 : ℤ) : ℚ) / 100)) :=
  ⟨by decide, by decide,
   C5_balance_calculator "A"
     [⟨"t1", "g1", "A", "B", mkRat 3 2, none, some "e1", some 0⟩,
      ⟨"t2", "g1", "B", "A", mkRat 1 4, none, some "e2", some 5⟩]
     [⟨"t2", "g1", "B", "A", mkRat 1 4, none, some "e2", some 5⟩,
      ⟨"t1", "g1", "A", "B", mkRat 3 2, none, some "e1", some 0⟩]
     (by decide) "A" "B" (by decide) 150⟩

/-- C6: the amount-only cascade never runs on the source: `update_expense`
executes `from db.transactions import get_transactions_by_expense_id`
(src/backend/db/expenses.py line 265) outside any `try`, and
`db/transactions.py` defines no such name, so updating an expense of 100
split three ways (per-person 25 among three debtors) to amount 200 raises
an uncaught `ImportError` and leaves the store — in particular every
linked DebtRecord, still at 25 — completely unchanged, while the claim
requires all linked DebtRecords updated in place to `200 / (3 + 1) = 50`. -/
theorem C6_update_expense_import_error :
    importOk db_transactions_defined_names update_expense_import_names
      = false ∧
    (update_expense
      (Store.mk
        [⟨"e1", "u1", 100, false, "Food", some "d", none, none⟩]
        [⟨"t1", "g1", "u1", "p1", 25, some "d", some "e1", some 0⟩,
         ⟨"t2", "g1", "u1", "p2", 25, some "d", some "e1", some 0⟩,
         ⟨"t3", "g1", "u1", "p3", 25, some "d", some "e1", some 0⟩])
      "e1" { amount_dollars := some 200 }).1 =
      UpdateResult.importError ∧
    (update_expense
      (Store.mk
        [⟨"e1", "u1", 100, false, "Food", some "d", none, none⟩]
        [⟨"t1", "g1", "u1", "p1", 25, some "d", some "e1", some 0⟩,
         ⟨"t2", "g1", "u1", "p2", 25, some "d", some "e1", some 0⟩,
         ⟨"t3", "g1", "u1", "p3", 25, some "d", some "e1", some 0⟩])
      "e1" { amount_dollars := some 200 }).2 =
      Store.mk
        [⟨"e1", "u1", 100, false, "Food", some "d", none, none⟩]
        [⟨"t1", "g1", "u1", "p1", 25, some "d", some "e1", some 0⟩,
         ⟨"t2", "g1", "u1", "p2", 25, some "d", some "e1", some 0⟩,
         ⟨"t3", "g1", "u1", "p3", 25, some "d", some "e1", some 0⟩] := by
  refine ⟨rfl, rfl, rfl⟩

theorem collectCluster_processed_mono (sg so : String) (st : ℚ)
    (l : List Txn) : ∀ (p : List String) (x : String),
    x ∈ p → x ∈ (collectCluster sg so st l p).processed := by
  induction l with
  | nil =>
    intro p x hx
    simpa [collectCluster] using hx
  | cons t rest ih =>
    intro p x hx
    rcases hca : t.created_at with _ | ts <;>
      simp only [collectCluster, hca] <;>
      split_ifs <;>
      first
        | exact ih p x hx
        | exact ih (t.transaction_id :: p) x (List.mem_cons_of_mem _ hx)

theorem collectCluster_cluster_processed (sg so : String) (st : ℚ)
    (l : List Txn) : ∀ (p : List String) (t' : Txn),
    t' ∈ (collectCluster sg so st l p).cluster →
    t'.transaction_id ∈ (collectCluster sg so st l p).processed := by
  induction l with
  | nil =>
    intro p t' ht'
    simp [collectCluster] at ht'
  | cons t rest ih =>
    intro p t' ht'
    rcases hca : t.created_at with _ | ts <;>
      simp only [collectCluster, hca] at ht' ⊢ <;>
      split_ifs at ht' ⊢ <;>
      first
        | exact ih p t' ht'
        | (rcases List.mem_cons.1 ht' with rfl | hmem
           exacts [collectCluster_processed_mono sg so st rest
               (t'.transaction_id :: p) t'.transaction_id
               (List.mem_cons_self _ _),
             ih (t.transaction_id :: p) t' hmem])

theorem collectCluster_cluster_fresh (sg so : String) (st : ℚ)
    (l : List Txn) : ∀ (p : List String) (t' : Txn),
    t' ∈ (collectCluster sg so st l p).cluster →
    t'.transaction_id ∉ p := by
  induction l with
  | nil =>
    intro p t' ht'
    simp [collectCluster] at ht'
  | cons t rest ih =>
    intro p t' ht'
    rcases hca : t.created_at with _ | ts <;>
      simp only [collectCluster, hca] at ht' <;>
      split_ifs at ht' with h1 h2 h3 h4 h5 <;>
      first
        | exact ih p t' ht'
        | (rcases List.mem_cons.1 ht' with rfl | hmem
           exacts [h1,
             fun hp =>
               ih (t.transaction_id :: p) t' hmem
                 (List.mem_cons_of_mem _ hp)])

theorem groupGo_fresh (all : List Txn) : ∀ (l : List Txn)
    (p : List String) (g : GroupedTxn), g ∈ groupGo all l p →
    ∀ id ∈ g.transaction_ids, id ∉ p := by
  intro l
  induction l with
  | nil =>
    intro p g hg
    simp [groupGo] at hg
  | cons t rest ih =>
    intro p g hg id hid
    rcases hca : t.created_at with _ | ts
    · simp only [groupGo, hca] at hg
      split_ifs at hg <;> exact ih p g hg id hid
    · simp only [groupGo, hca] at hg
      split_ifs at hg with h1
      · exact ih p g hg id hid
      · rcases hcl : (collectCluster t.group_id t.user_owed ts all
            p).cluster with _ | ⟨sample, cl⟩
        · rw [hcl] at hg
          intro hp
          exact ih (collectCluster t.group_id t.user_owed ts all p).processed
            g hg id hid
            (collectCluster_processed_mono t.group_id t.user_owed ts all p
              id hp)
        · rw [hcl] at hg
          rcases List.mem_cons.1 hg with rfl | hmem
          · have hid' : id ∈ (sample :: cl).map
                (fun x => x.transaction_id) := hid
            rcases List.mem_map.1 hid' with ⟨t', ht', rfl⟩
            rw [← hcl] at ht'
            exact collectCluster_cluster_fresh t.group_id t.user_owed ts all
              p t' ht'
          · intro hp
            exact ih
              (collectCluster t.group_id t.user_owed ts all p).processed
              g hmem id hid
              (collectCluster_processed_mono t.group_id t.user_owed ts all p
                id hp)

theorem groupGo_pairwise (all : List Txn) : ∀ (l : List Txn)
    (p : List String), (groupGo all l p).Pairwise
      (fun g1 g2 => ∀ id ∈ g1.transaction_ids,
        id ∉ g2.transaction_ids) := by
  intro l
  induction l with
  | nil =>
    intro p
    simp [groupGo]
  | cons t rest ih =>
    intro p
    rcases hca : t.created_at with _ | ts
    · simp only [groupGo, hca]
      split_ifs <;> exact ih p
    · simp only [groupGo, hca]
      split_ifs with h1
      · exact ih p
      · rcases hcl : (collectCluster t.group_id t.user_owed ts all
            p).cluster with _ | ⟨sample, cl⟩
        · exact ih _
        · refine List.Pairwise.cons ?_ (ih _)
          intro g' hg' id hid
          have hid' : id ∈ (sample :: cl).map
              (fun x => x.transaction_id) := hid
          rcases List.mem_map.1 hid' with ⟨t', ht', rfl⟩
          rw [← hcl] at ht'
          have hproc := collectCluster_cluster_processed t.group_id
            t.user_owed ts all p t' ht'
          intro hin
          exact groupGo_fresh all rest
            (collectCluster t.group_id t.user_owed ts all p).processed
            g' hg' t'.transaction_id hin hproc

/-- C9: the LogicalSplits emitted by the grouping computation are pairwise
disjoint: a transaction id that appears in the `transaction_ids` of one
emitted grouped transaction appears in no other — each record is marked
processed when first clustered and processed records are never clustered
again. -/
theorem C9_logical_splits_disjoint (all : List Txn) :
    (groupedTransactions all).Pairwise
      (fun g1 g2 => ∀ id ∈ g1.transaction_ids,
        id ∉ g2.transaction_ids) :=
  groupGo_pairwise all all []

/-- C4: for an expense of 90.00 split at per-person 22.50 among three
distinct participants, with the three DebtRecords sharing one group and one
creditor and their timestamps pairwise within 1 second, the grouping
computation yields exactly one LogicalSplit whose debtor set is
`{p1, p2, p3}` (written as nested inserts), whose per-person amount is
22.50, whose total is 90.00 (per-person times debtors-plus-one) and which
carries all three transaction ids. -/
theorem C4_grouping_round_trip
    (i1 i2 i3 p1 p2 p3 g c : String) (note eid : Option String)
    (t1 t2 t3 : ℚ)
    (hi12 : i1 ≠ i2) (hi13 : i1 ≠ i3) (hi23 : i2 ≠ i3)
    (hp12 : p1 ≠ p2) (hp13 : p1 ≠ p3) (hp23 : p2 ≠ p3)
    (hp1 : p1 ≠ "") (hp2 : p2 ≠ "") (hp3 : p3 ≠ "")
    (h12 : |t1 - t2| ≤ 1) (h13 : |t1 - t3| ≤ 1) (h23 : |t2 - t3| ≤ 1) :
    groupedTransactions
      [⟨i1, g, c, p1, 45/2, note, eid, some t1⟩,
       ⟨i2, g, c, p2, 45/2, note, eid, some t2⟩,
       ⟨i3, g, c, p3, 45/2, note, eid, some t3⟩] =
      [{ group_id := g, user_owed := c,
         user_owing_list := insert p1 (insert p2 (insert p3 ∅)),
         amount_per_person := 45/2, total_amount := 90,
         participant_count := 4, created_at := t1,
         transaction_ids := [i1, i2, i3], notes := note }] := by
  have habs1 : ratAbs (ratSub t1 t1) ≤ 1 := by
    rw [ratAbs_eq, ratSub_eq]
    simp
  have habs2 : ratAbs (ratSub t2 t1) ≤ 1 := by
    rw [ratAbs_eq, ratSub_eq, abs_sub_comm]
    exact h12
  have habs3 : ratAbs (ratSub t3 t1) ≤ 1 := by
    rw [ratAbs_eq, ratSub_eq, abs_sub_comm]
    exact h13
  have hcc : collectCluster g c t1
      [⟨i1, g, c, p1, 45/2, note, eid, some t1⟩,
       ⟨i2, g, c, p2, 45/2, note, eid, some t2⟩,
       ⟨i3, g, c, p3, 45/2, note, eid, some t3⟩] [] =
      ⟨[⟨i1, g, c, p1, 45/2, note, eid, some t1⟩,
        ⟨i2, g, c, p2, 45/2, note, eid, some t2⟩,
        ⟨i3, g, c, p3, 45/2, note, eid, some t3⟩],
       insert p1 (insert p2 (insert p3 ∅)), [i3, i2, i1]⟩ := by
    simp [collectCluster, habs1, habs2, habs3, List.mem_cons,
      Ne.symm hi12, Ne.symm hi13, Ne.symm hi23, hp1, hp2, hp3]
  have hcard : ({p1, p2, p3} : Finset String).card = 3 := by
    rw [Finset.card_insert_of_not_mem (by simp [hp12, hp13]),
      Finset.card_insert_of_not_mem (by simp [hp23]),
      Finset.card_singleton]
  simp [groupedTransactions, groupGo, hcc, List.mem_cons]
  refine ⟨?_, hcard⟩
  rw [hcard]
  rw [show (((3:ℕ) : ℚ) + 1) = 4 from by norm_num]
  rw [show ((45:ℚ)/2) = mkRat 45 2 from by
    rw [Rat.mkRat_eq_div]
    norm_num]
  decide

/-- C4 witness: the theorem applied to three concrete DebtRecords of 22.50
in group `g1` with creditor `c`, timestamps 0, 1, 1. -/
theorem C4_grouping_round_trip_witness :
    ("t1" : String) ≠ "t2" ∧ ("t1" : String) ≠ "t3" ∧
    ("t2" : String) ≠ "t3" ∧
    ("p1" : String) ≠ "p2" ∧ ("p1" : String) ≠ "p3" ∧
    ("p2" : String) ≠ "p3" ∧
    ("p1" : String) ≠ "" ∧ ("p2" : String) ≠ "" ∧ ("p3" : String) ≠ "" ∧
    |(0 : ℚ) - 1| ≤ 1 ∧ |(0 : ℚ) - 1| ≤ 1 ∧ |(1 : ℚ) - 1| ≤ 1 ∧
    groupedTransactions
      [⟨"t1", "g1", "c", "p1", 45/2, some "d", some "e1", some 0⟩,
       ⟨"t2", "g1", "c", "p2", 45/2, some "d", some "e1", some 1⟩,
       ⟨"t3", "g1", "c", "p3", 45/2, some "d", some "e1", some 1⟩] =
      [{ group_id := "g1", user_owed := "c",
         user_owing_list := insert "p1" (insert "p2" (insert "p3" ∅)),
         amount_per_person := 45/2, total_amount := 90,
         participant_count := 4, created_at := 0,
         transaction_ids := ["t1", "t2", "t3"], notes := some "d" }] :=
  ⟨by decide, by decide, by decide, by decide, by decide, by decide,
   by decide, by decide, by decide, by norm_num, by norm_num, by norm_num,
   C4_grouping_round_trip "t1" "t2" "t3" "p1" "p2" "p3" "g1" "c"
     (some "d") (some "e1") 0 1 1
     (by decide) (by decide) (by decide) (by decide) (by decide)
     (by decide) (by decide) (by decide) (by decide)
     (by norm_num) (by norm_num) (by norm_num)⟩
